import Mathlib

/-!
Verification of the interactive session / timeout-driven output aggregation
component of the Zetic/zpt repository: the classes `OutputImage` and
`ImageProcessingView` of `src/discord_bot.py` (lazy image loading,
`on_timeout` finalized rendering, `add_output`, and the two button handlers).

The embedding is explicit about the two effectful collaborators:
a filesystem, modelled as a map from paths to a `FileState` (absent,
present but undecodable, or decodable to an opaque image), and the host
messaging collaborator, modelled by recording every attempted
`message.edit` call together with a flag saying whether the host accepted
it.  Exceptions of the Python code are modelled with `Except`: a call to
`Image.open` on an undecodable file is an `Except.error`, and a rejected
edit is an attempt whose `ok` flag is `false`.  The `try`/`except` blocks
of the source are translated into the corresponding case analyses.
-/

set_option maxRecDepth 16384

namespace Zpt

/-- Opaque decoded pixel data; stands in for a PIL `Image` object. -/
structure Image where
  data : Nat
deriving DecidableEq, Repr, Inhabited

/-- State of one path on disk: missing (`os.path.exists` is false),
present but undecodable (`Image.open` raises), or decodable. -/
inductive FileState where
  | missing
  | corrupt
  | good (img : Image)
deriving DecidableEq, Repr

/-- `OutputImage` from src/discord_bot.py lines 59-71: one generated image
with its prompt, display filename and a lazily populated cache. -/
structure OutputImage where
  image_path : String
  prompt : String
  filename : String
  image : Option Image := none
deriving DecidableEq, Repr

/-- `OutputImage.load_image` (src/discord_bot.py lines 67-71):
if the cache is empty and the path exists, decode and cache the image
(raising if the file is undecodable); return the cache, which stays
`none` when the path does not exist. -/
def OutputImage.load_image (o : OutputImage) (fs : String → FileState) :
    Except Unit (OutputImage × Option Image) :=
  match o.image with
  | some img => Except.ok (o, some img)
  | none =>
    match fs o.image_path with
    | FileState.missing => Except.ok (o, none)
    | FileState.corrupt => Except.error ()
    | FileState.good img => Except.ok ({ o with image := some img }, some img)

/-- The discord embed colors used by this component. -/
inductive Color where
  | orange
  | blue
  | green
deriving DecidableEq, Repr

/-- A discord embed, restricted to the fields the component sets. -/
structure Embed where
  title : String
  description : String
  color : Color
  imageUrl : Option String := none
deriving DecidableEq, Repr

/-- A discord file attachment: its name and the (PNG encoded) image. -/
structure DFile where
  filename : String
  data : Image
deriving DecidableEq, Repr

/-- One interactive component of the view (the two buttons). -/
structure UIButton where
  label : String
  disabled : Bool := false
deriving DecidableEq, Repr

/-- A handle to the single message the session renders into. -/
structure MessageRef where
  id : Nat
deriving DecidableEq, Repr

/-- `ImageProcessingView` state (src/discord_bot.py lines 73-80):
ordered outputs, the owned message, the processing flag, and the two
buttons added by the decorators. -/
structure ImageProcessingView where
  timeout : Nat := 1800
  outputs : List OutputImage := []
  message : Option MessageRef := none
  processing : Bool := false
  children : List UIButton :=
    [{ label := "Process Image" }, { label := "View Outputs" }]
deriving DecidableEq, Repr

/-- The arguments of one `message.edit(...)` call; a field is `none`
when the keyword argument was not passed.  `view := none` records the
explicit `view=None` argument that removes all controls. -/
structure EditCall where
  content : String
  embeds : Option (List Embed) := none
  attachments : Option (List DFile) := none
  view : Option Unit := none
deriving DecidableEq, Repr

/-- One attempted edit: the call and whether the host accepted it
(`ok := false` models `message.edit` raising). -/
structure EditAttempt where
  call : EditCall
  ok : Bool
deriving DecidableEq, Repr

/-- The environment of a run: the filesystem, and which edit attempts
(numbered globally) the host rejects. -/
structure Env where
  fs : String → FileState
  editFails : Nat → Bool

/-- Perform the k-th edit attempt of the run. -/
def attemptEdit (env : Env) (k : Nat) (c : EditCall) : EditAttempt :=
  { call := c, ok := !env.editFails k }

/-- The content string of the finalized edit (src/discord_bot.py line 138). -/
def timeoutBanner : String :=
  "ðŸ•’ **Timed out!** Here are all your output images:"

/-- The content string of the minimal fallback edit (line 148). -/
def fallbackNotice : String :=
  "ðŸ•’ Session timed out. An error occurred while displaying output images."

/-- The single embed used when no outputs were generated (lines 97-101). -/
def noOutputsEmbed : Embed :=
  { title := "ðŸ•’ Session Timed Out"
    description := "No output images were generated during this session."
    color := Color.orange }

/-- The overflow notice embed inserted when more than ten outputs exist
(lines 129-133); n is the total number of outputs. -/
def overflowEmbed (n : Nat) : Embed :=
  { title := "Additional Outputs"
    description := "Note: " ++ toString (n - 10) ++
      " additional output images were generated but cannot be displayed due to Discord\x27s 10-embed limit."
    color := Color.blue }

/-- The title of the embed for the output at 0-based index i out of n
(line 118). -/
def mkTitle (i n : Nat) : String :=
  "Final Output " ++ toString (i + 1) ++ "/" ++ toString n ++ " (Timed Out)"

/-- The embed built for one output (lines 117-122): numbered title,
prompt truncated to 100 characters with a trailing ellipsis when longer,
and the attachment reference. -/
def mkOutputEmbed (i n : Nat) (o : OutputImage) : Embed :=
  { title := mkTitle i n
    description := "Prompt: " ++ o.prompt.take 100 ++
      (if o.prompt.length > 100 then "..." else "")
    color := Color.orange
    imageUrl := some ("attachment://" ++ o.filename) }

/-- The body of the per-output loop (lines 106-125) for the output at
enumerate index i: load the image inside a try/except; on success build
the file and the embed, on a raised exception or a `None` image skip the
output.  Returns the possibly cache-updated record and the optional
file/embed pair. -/
def prepareOutput (fs : String → FileState) (i n : Nat) (o : OutputImage) :
    OutputImage × Option (DFile × Embed) :=
  match o.load_image fs with
  | Except.error _ => (o, none)
  | Except.ok (o', none) => (o', none)
  | Except.ok (o', some img) =>
      (o', some ({ filename := o.filename, data := img }, mkOutputEmbed i n o))

/-- The loop `for i, output in enumerate(self.outputs[:10])` applied to a
list starting at enumerate index i: returns the updated records, the
collected files and the collected embeds, in order. -/
def renderOutputs (fs : String → FileState) (n : Nat) :
    Nat → List OutputImage → List OutputImage × List DFile × List Embed
  | _, [] => ([], [], [])
  | i, o :: rest =>
      let p := prepareOutput fs i n o
      let r := renderOutputs fs n (i + 1) rest
      match p.2 with
      | none => (p.1 :: r.1, r.2.1, r.2.2)
      | some fe => (p.1 :: r.1, fe.1 :: r.2.1, fe.2 :: r.2.2)

/-- `ImageProcessingView.on_timeout` (src/discord_bot.py lines 82-152):
disable all children; return if no message is owned; build the finalized
embeds and files (no-outputs notice, or the per-output loop over the
first ten outputs plus the overflow notice when more than ten exist);
edit the message with `view=None`; on an edit failure fall back to a
plain text edit whose own failure is swallowed.  Takes and returns the
global edit-attempt counter and returns the list of attempted edits. -/
def on_timeout (env : Env) (k : Nat) (v : ImageProcessingView) :
    ImageProcessingView × Nat × List EditAttempt :=
  let disabledChildren := v.children.map (fun b => { b with disabled := true })
  match v.message with
  | none => ({ v with children := disabledChildren }, k, [])
  | some _ =>
      let n := v.outputs.length
      let rendered :=
        if v.outputs.isEmpty then
          (v.outputs, ([] : List DFile), [noOutputsEmbed])
        else
          let t := renderOutputs env.fs n 0 (v.outputs.take 10)
          (t.1 ++ v.outputs.drop 10, t.2.1,
           if n > 10 then overflowEmbed n :: t.2.2 else t.2.2)
      let v2 : ImageProcessingView :=
        { v with children := disabledChildren, outputs := rendered.1 }
      let a1 := attemptEdit env k
        { content := timeoutBanner, embeds := some rendered.2.2,
          attachments := some rendered.2.1, view := none }
      if a1.ok then
        (v2, k + 1, [a1])
      else
        let a2 := attemptEdit env (k + 1)
          { content := fallbackNotice, embeds := none, attachments := none,
            view := none }
        (v2, k + 2, [a1, a2])

/-- `ImageProcessingView.add_output` (lines 154-156): unconditionally
append the record to `outputs`. -/
def ImageProcessingView.add_output (v : ImageProcessingView) (o : OutputImage) :
    ImageProcessingView :=
  { v with outputs := v.outputs ++ [o] }

/-- The observable actions of a button handler. -/
inductive Action where
  | sendEphemeral (content : String)
  | sendEphemeralEmbed (e : Embed)
  | editMessage (c : EditCall)
deriving DecidableEq, Repr

/-- Whether an action edits the rendered message. -/
def isEditAction : Action → Bool
  | Action.editMessage _ => true
  | _ => false

/-- `process_button` (lines 158-165): a busy notice when processing,
otherwise the stub acknowledgment; both ephemeral, no state change. -/
def process_button (v : ImageProcessingView) : ImageProcessingView × List Action :=
  if v.processing then
    (v, [Action.sendEphemeral "Already processing an image. Please wait..."])
  else
    (v, [Action.sendEphemeral "Image processing feature would be implemented here."])

/-- `view_outputs_button` (lines 167-180): an ephemeral notice when no
outputs exist, otherwise an ephemeral summary embed; no state change. -/
def view_outputs_button (v : ImageProcessingView) : ImageProcessingView × List Action :=
  if v.outputs.isEmpty then
    (v, [Action.sendEphemeral "No output images generated yet."])
  else
    (v, [Action.sendEphemeralEmbed
      { title := "Current Outputs"
        description := "Generated " ++ toString v.outputs.length ++
          " output image(s) so far."
        color := Color.blue }])

/-- Observer: whether the per-output loop obtains an image for this
record (from the cache or from a decodable file). -/
def decodes (fs : String → FileState) (o : OutputImage) : Bool :=
  match o.image with
  | some _ => true
  | none =>
    match fs o.image_path with
    | FileState.good _ => true
    | _ => false

/-- Observer: the image the loop obtains for a record that decodes
(a default value otherwise). -/
def decodedImageD (fs : String → FileState) (o : OutputImage) : Image :=
  match o.image with
  | some img => img
  | none =>
    match fs o.image_path with
    | FileState.good img => img
    | _ => { data := 0 }

/-- The number of edits the host accepted in a list of attempts. -/
def okEdits (l : List EditAttempt) : Nat :=
  (l.filter (fun a => a.ok)).length

/-- An environment whose filesystem is empty and whose host accepts
every edit. -/
def envNoFail : Env :=
  { fs := fun _ => FileState.missing, editFails := fun _ => false }

/-- An environment in which every path exists but no file decodes. -/
def envAllCorrupt : Env :=
  { fs := fun _ => FileState.corrupt, editFails := fun _ => false }

/-- An environment whose host rejects the first edit attempt of the run. -/
def envEditFail : Env :=
  { fs := fun _ => FileState.missing, editFails := fun j => j == 0 }

/-- A session that owns a message and has no outputs. -/
def emptyView : ImageProcessingView := { message := some { id := 1 } }

/-- A generated output whose image is already cached. -/
def outA : OutputImage :=
  { image_path := "a.png", prompt := "pa", filename := "a.png",
    image := some { data := 1 } }

/-- A second generated output whose image is already cached. -/
def outB : OutputImage :=
  { image_path := "b.png", prompt := "pb", filename := "b.png",
    image := some { data := 2 } }

/-- An output with an empty cache whose source file is gone. -/
def o2bad : OutputImage :=
  { image_path := "bad.png", prompt := "x", filename := "bad.png" }

/-- An output with an empty cache (its path decodability is decided by
the environment). -/
def oCorrupt : OutputImage :=
  { image_path := "c.png", prompt := "x", filename := "c.png" }

/-- An output appended after finalization. -/
def lateOut : OutputImage :=
  { image_path := "late.png", prompt := "late", filename := "late.png" }

/-- A session with two decodable outputs. -/
def viewC3 : ImageProcessingView :=
  { message := some { id := 2 }, outputs := [outA, outB] }

/-- A session with eleven decodable outputs. -/
def viewC5 : ImageProcessingView :=
  { message := some { id := 3 },
    outputs := (List.range 11).map (fun j =>
      { image_path := "p.png", prompt := "p", filename := "f.png",
        image := some { data := j } }) }

/-- A session of three outputs whose second one fails to load. -/
def viewC7 : ImageProcessingView :=
  { message := some { id := 4 }, outputs := [outA, o2bad, outB] }

/-- A session with a single output whose file raises on decoding. -/
def viewC8 : ImageProcessingView :=
  { message := some { id := 5 }, outputs := [oCorrupt] }

/-- A prompt of exactly 50 characters. -/
def p50c : String := String.mk (List.replicate 50 'b')

/-- A prompt of exactly 150 characters. -/
def p150c : String := String.mk (List.replicate 150 'a')

/-- An output carrying the 50 character prompt. -/
def o50c : OutputImage :=
  { image_path := "p50.png", prompt := p50c, filename := "p50.png",
    image := some { data := 2 } }

/-- An output carrying the 150 character prompt. -/
def o150c : OutputImage :=
  { image_path := "p150.png", prompt := p150c, filename := "p150.png",
    image := some { data := 3 } }

/-- A session with the single 50 character prompt output. -/
def viewC6 : ImageProcessingView :=
  { message := some { id := 6 }, outputs := [o50c] }

/-- An output with an empty cache and a missing source file. -/
def oMissing : OutputImage :=
  { image_path := "gone.png", prompt := "p", filename := "gone.png" }

/-- An output whose image is cached. -/
def oCached : OutputImage :=
  { image_path := "kept.png", prompt := "p", filename := "kept.png",
    image := some { data := 5 } }

/-- On a record that decodes, the loop body produces the file named by
the record and the numbered embed, and caches the decoded image. -/
theorem prepareOutput_of_decodes (fs : String → FileState) (i n : Nat)
    (o : OutputImage) (h : decodes fs o = true) :
    prepareOutput fs i n o =
      ({ o with image := some (decodedImageD fs o) },
       some ({ filename := o.filename, data := decodedImageD fs o },
             mkOutputEmbed i n o)) := by
  cases o with
  | mk p pr fn im =>
    cases im with
    | some img => simp [prepareOutput, OutputImage.load_image, decodedImageD]
    | none =>
      cases hfs : fs p with
      | missing => simp [decodes, hfs] at h
      | corrupt => simp [decodes, hfs] at h
      | good img =>
        simp [prepareOutput, OutputImage.load_image, decodedImageD, hfs]

/-- On a record that does not decode (missing file, or a file whose
decoding raises), the loop body skips the record and changes nothing. -/
theorem prepareOutput_of_not_decodes (fs : String → FileState) (i n : Nat)
    (o : OutputImage) (h : decodes fs o = false) :
    prepareOutput fs i n o = (o, none) := by
  cases o with
  | mk p pr fn im =>
    cases im with
    | some img => simp [decodes] at h
    | none =>
      cases hfs : fs p with
      | missing => simp [prepareOutput, OutputImage.load_image, hfs]
      | corrupt => simp [prepareOutput, OutputImage.load_image, hfs]
      | good img => simp [decodes, hfs] at h

/-- When every record in the list decodes, the loop produces one file and
one embed per record, in order, with consecutive enumerate indices. -/
theorem renderOutputs_spec (fs : String → FileState) (n : Nat)
    (l : List OutputImage) :
    ∀ i : Nat, (∀ o ∈ l, decodes fs o = true) →
      renderOutputs fs n i l =
        (l.map (fun o => { o with image := some (decodedImageD fs o) }),
         l.map (fun o => ({ filename := o.filename,
                            data := decodedImageD fs o } : DFile)),
         l.mapIdx (fun j o => mkOutputEmbed (i + j) n o)) := by
  induction l with
  | nil => intro i h; simp [renderOutputs]
  | cons o rest ih =>
    intro i h
    have ho : decodes fs o = true := h o (List.mem_cons_self o rest)
    have hrest : ∀ x ∈ rest, decodes fs x = true :=
      fun x hx => h x (List.mem_cons_of_mem o hx)
    have hshift : (fun j (x : OutputImage) => mkOutputEmbed (i + (j + 1)) n x)
        = (fun j x => mkOutputEmbed ((i + 1) + j) n x) := by
      funext j x
      have hji : i + (j + 1) = (i + 1) + j := by omega
      rw [hji]
    simp [renderOutputs, prepareOutput_of_decodes fs i n o ho,
      ih (i + 1) hrest, List.mapIdx_cons, hshift]

/-- The title field of the embed built for one output. -/
theorem mkOutputEmbed_title (i n : Nat) (o : OutputImage) :
    (mkOutputEmbed i n o).title = mkTitle i n := rfl

/-- The titles of the embeds produced for consecutively indexed records
are the numbered titles, in order. -/
theorem mapIdx_map_title (n : Nat) (l : List OutputImage) :
    ∀ k : Nat,
      (l.mapIdx (fun i o => mkOutputEmbed (k + i) n o)).map Embed.title
        = (List.range' k l.length).map (fun i => mkTitle i n) := by
  induction l with
  | nil => intro k; simp
  | cons o rest ih =>
    intro k
    have hshift : (fun j (x : OutputImage) => mkOutputEmbed (k + (j + 1)) n x)
        = (fun j x => mkOutputEmbed ((k + 1) + j) n x) := by
      funext j x
      have hjk : k + (j + 1) = (k + 1) + j := by omega
      rw [hjk]
    simp [List.mapIdx_cons, hshift, ih (k + 1), List.range'_succ,
      mkOutputEmbed_title]

/-- The timeout handler never changes which message the session owns. -/
theorem on_timeout_message (env : Env) (k : Nat) (v : ImageProcessingView) :
    (on_timeout env k v).1.message = v.message := by
  unfold on_timeout
  cases hm : v.message with
  | none => simp
  | some m =>
    simp only []
    repeat' split
    all_goals rfl

/-- After the timeout handler runs, every interactive component of the
view is disabled. -/
theorem on_timeout_children_disabled (env : Env) (k : Nat)
    (v : ImageProcessingView) :
    ((on_timeout env k v).1.children.all (fun b => b.disabled)) = true := by
  unfold on_timeout
  cases hm : v.message with
  | none => simp [List.all_eq_true]
  | some m =>
    simp only []
    repeat' split
    all_goals simp [List.all_eq_true]

/-- Every edit the timeout handler attempts passes the explicit
`view=None` argument that removes the controls. -/
theorem on_timeout_view_none (env : Env) (k : Nat) (v : ImageProcessingView) :
    ((on_timeout env k v).2.2.all (fun a => a.call.view.isNone)) = true := by
  unfold on_timeout
  cases hm : v.message with
  | none => simp
  | some m =>
    simp only []
    repeat' split
    all_goals simp [attemptEdit]

/-- When the session owns a message and the host accepts the edit, a run
of the timeout handler attempts exactly one edit, which succeeds, and
consumes exactly one attempt number. -/
theorem on_timeout_attempts_succeed (env : Env) (k : Nat)
    (v : ImageProcessingView) (m : MessageRef) (hm : v.message = some m)
    (hE : env.editFails k = false) :
    ∃ c, (on_timeout env k v).2.2 = [{ call := c, ok := true }] ∧
      (on_timeout env k v).2.1 = k + 1 := by
  unfold on_timeout
  rw [hm]
  simp only [attemptEdit, hE, Bool.not_false, if_true]
  exact ⟨_, rfl, trivial⟩

/-- Claim C1, counterexample: the handler is not idempotent.  On a
session owning a message, two consecutive runs of the timeout handler
perform two accepted message edits, not one: the code keeps no finalized
flag and the second run edits the message again. -/
theorem C1_counterexample :
    okEdits (on_timeout envNoFail 0 emptyView).2.2 +
      okEdits (on_timeout envNoFail (on_timeout envNoFail 0 emptyView).2.1
        (on_timeout envNoFail 0 emptyView).1).2.2 = 2 ∧
    ¬ (okEdits (on_timeout envNoFail 0 emptyView).2.2 +
      okEdits (on_timeout envNoFail (on_timeout envNoFail 0 emptyView).2.1
        (on_timeout envNoFail 0 emptyView).1).2.2 = 1) := by
  decide

/-- Claim C1 as amended: on a session owning a message, each run of the
timeout handler performs exactly one message edit when the host accepts
edits, so two consecutive runs perform one edit each (two in total,
re-rendering the message), and neither run raises. -/
theorem C1_on_timeout_each_call_edits_once (env : Env) (k : Nat)
    (v : ImageProcessingView) (m : MessageRef) (hm : v.message = some m)
    (hE : ∀ j, env.editFails j = false) :
    okEdits (on_timeout env k v).2.2 = 1 ∧
    okEdits (on_timeout env (on_timeout env k v).2.1
      (on_timeout env k v).1).2.2 = 1 := by
  obtain ⟨c1, h1, hk1⟩ := on_timeout_attempts_succeed env k v m hm (hE k)
  have hm2 : (on_timeout env k v).1.message = some m := by
    rw [on_timeout_message, hm]
  obtain ⟨c2, h2, hk2⟩ := on_timeout_attempts_succeed env
    (on_timeout env k v).2.1 (on_timeout env k v).1 m hm2 (hE _)
  exact ⟨by simp [h1, okEdits], by simp [h2, okEdits]⟩

/-- Claim C1, witness of the amended statement at a concrete session. -/
theorem C1_witness :
    okEdits (on_timeout envNoFail 0 emptyView).2.2 = 1 ∧
    okEdits (on_timeout envNoFail (on_timeout envNoFail 0 emptyView).2.1
      (on_timeout envNoFail 0 emptyView).1).2.2 = 1 :=
  C1_on_timeout_each_call_edits_once envNoFail 0 emptyView { id := 1 } rfl
    (fun _ => rfl)

/-- Claim C2, counterexample: appending an output to a session on which
the timeout handler has already run does change `outputs` — the late
record is appended, not dropped, because `add_output` checks no
finalized flag. -/
theorem C2_counterexample :
    ((on_timeout envNoFail 0 emptyView).1.add_output lateOut).outputs
      ≠ (on_timeout envNoFail 0 emptyView).1.outputs := by
  decide

/-- Claim C2 as amended: `add_output` appends unconditionally, even on a
session on which the timeout handler has already run; the late record
ends up appended to `outputs` and the sequence grows by one. -/
theorem C2_add_output_appends_after_timeout (env : Env) (k : Nat)
    (v : ImageProcessingView) (o : OutputImage) :
    ((on_timeout env k v).1.add_output o).outputs
        = (on_timeout env k v).1.outputs ++ [o] ∧
    ((on_timeout env k v).1.add_output o).outputs.length
        = (on_timeout env k v).1.outputs.length + 1 := by
  constructor
  · rfl
  · simp [ImageProcessingView.add_output]

/-- Claim C9: after the timeout handler has run, both button handlers
leave the session state unchanged and perform no edit of the rendered
message (their only actions are ephemeral responses, and they raise
nothing); moreover every edit of the finalized render passed
`view=None`, and every interactive component is disabled, so the host
never delivers an activation to a finalized session in the first
place. -/
theorem C9_controls_noop_after_timeout (env : Env) (k : Nat)
    (v : ImageProcessingView) :
    (process_button (on_timeout env k v).1).1 = (on_timeout env k v).1 ∧
    ((process_button (on_timeout env k v).1).2.all
      (fun a => !isEditAction a)) = true ∧
    (view_outputs_button (on_timeout env k v).1).1 = (on_timeout env k v).1 ∧
    ((view_outputs_button (on_timeout env k v).1).2.all
      (fun a => !isEditAction a)) = true ∧
    ((on_timeout env k v).2.2.all (fun a => a.call.view.isNone)) = true ∧
    ((on_timeout env k v).1.children.all (fun b => b.disabled)) = true := by
  refine ⟨?_, ?_, ?_, ?_, on_timeout_view_none env k v,
    on_timeout_children_disabled env k v⟩
  · unfold process_button; split <;> rfl
  · unfold process_button; split <;> simp [isEditAction]
  · unfold view_outputs_button; split <;> rfl
  · unfold view_outputs_button; split <;> simp [isEditAction]

/-- Claim C10: `load_image` on a record whose path does not exist
returns the cache (still `None`) and raises nothing, and on a record
whose image is already cached it returns the cached image, leaves the
record unchanged, and its result does not depend on the filesystem at
all (the short-circuit skips the existence check). -/
theorem C10_load_image_total_and_cached (fs fs' : String → FileState)
    (o : OutputImage) :
    (o.image = none → fs o.image_path = FileState.missing →
      o.load_image fs = Except.ok (o, none)) ∧
    (∀ img : Image, o.image = some img →
      o.load_image fs = Except.ok (o, some img) ∧
      o.load_image fs = o.load_image fs') := by
  constructor
  · intro h1 h2
    simp [OutputImage.load_image, h1, h2]
  · intro img h
    simp [OutputImage.load_image, h]

/-- Claim C10, witness: a record with a missing file and a record with a
cached image, the latter checked against two different filesystems. -/
theorem C10_witness :
    oMissing.load_image envNoFail.fs = Except.ok (oMissing, none) ∧
    (oCached.load_image envNoFail.fs = Except.ok (oCached, some { data := 5 }) ∧
     oCached.load_image envNoFail.fs = oCached.load_image envAllCorrupt.fs) :=
  ⟨(C10_load_image_total_and_cached envNoFail.fs envAllCorrupt.fs oMissing).1
      rfl rfl,
   (C10_load_image_total_and_cached envNoFail.fs envAllCorrupt.fs oCached).2
      { data := 5 } rfl⟩

/-- Claim C4: on a session with a message and zero outputs, the
finalized render is a single accepted edit carrying exactly one
informational embed (whose description states that no outputs were
generated) and zero attachments, with `view=None`; the finalization
executes and every control is disabled. -/
theorem C4_zero_outputs_render (env : Env) (k : Nat) (v : ImageProcessingView)
    (m : MessageRef) (hm : v.message = some m) (h0 : v.outputs = [])
    (hE : env.editFails k = false) :
    (on_timeout env k v).2.2 =
      [{ call := { content := timeoutBanner, embeds := some [noOutputsEmbed],
                   attachments := some [], view := none }, ok := true }] ∧
    noOutputsEmbed.description
      = "No output images were generated during this session." ∧
    ((on_timeout env k v).1.children.all (fun b => b.disabled)) = true := by
  refine ⟨?_, rfl, on_timeout_children_disabled env k v⟩
  unfold on_timeout
  rw [hm]
  simp [h0, attemptEdit, hE]

/-- Claim C4, witness at a concrete session with zero outputs. -/
theorem C4_witness :
    (on_timeout envNoFail 0 emptyView).2.2 =
      [{ call := { content := timeoutBanner, embeds := some [noOutputsEmbed],
                   attachments := some [], view := none }, ok := true }] :=
  (C4_zero_outputs_render envNoFail 0 emptyView { id := 1 } rfl rfl rfl).1

/-- Claim C3: on a session with a message and n outputs, 1 <= n <= 10,
all of which decode, the finalized render is a single accepted edit
whose embeds are exactly the n numbered output embeds in insertion
order and whose attachments are exactly the n files named by each
output, with `view=None`; the embed titles are the numbered strings
for positions 1..n and the attachment names follow insertion order. -/
theorem C3_render_counts_and_titles (env : Env) (k : Nat)
    (v : ImageProcessingView) (m : MessageRef) (hm : v.message = some m)
    (h1 : 1 ≤ v.outputs.length) (h10 : v.outputs.length ≤ 10)
    (hdec : ∀ o ∈ v.outputs, decodes env.fs o = true)
    (hE : env.editFails k = false) :
    (on_timeout env k v).2.2 =
      [{ call := { content := timeoutBanner,
                   embeds := some (v.outputs.mapIdx
                     (fun i o => mkOutputEmbed i v.outputs.length o)),
                   attachments := some (v.outputs.map
                     (fun o => { filename := o.filename,
                                 data := decodedImageD env.fs o })),
                   view := none }, ok := true }] ∧
    (v.outputs.mapIdx (fun i o => mkOutputEmbed i v.outputs.length o)).map
        Embed.title
      = (List.range v.outputs.length).map
          (fun i => mkTitle i v.outputs.length) ∧
    (v.outputs.map (fun o =>
        ({ filename := o.filename, data := decodedImageD env.fs o } : DFile))).map
        DFile.filename
      = v.outputs.map OutputImage.filename ∧
    (v.outputs.mapIdx (fun i o => mkOutputEmbed i v.outputs.length o)).length
      = v.outputs.length := by
  have hz : (fun j (o : OutputImage) =>
        mkOutputEmbed (0 + j) v.outputs.length o)
      = (fun j o => mkOutputEmbed j v.outputs.length o) := by
    funext j o
    rw [Nat.zero_add]
  have hr := renderOutputs_spec env.fs v.outputs.length v.outputs 0 hdec
  refine ⟨?_, ?_, by simp, by simp [List.length_mapIdx]⟩
  · unfold on_timeout
    rw [hm]
    have hne : v.outputs.isEmpty = false := by
      cases hv : v.outputs with
      | nil => rw [hv] at h1; simp at h1
      | cons a t => simp
    have htake : v.outputs.take 10 = v.outputs := List.take_of_length_le h10
    have hgt : ¬ (v.outputs.length > 10) := by omega
    rw [hz] at hr
    simp [hne, htake, hgt, hr, attemptEdit, hE]
  · rw [← hz, mapIdx_map_title v.outputs.length v.outputs 0,
      List.range_eq_range']

/-- Claim C3, witness at a concrete session with two decodable
outputs. -/
theorem C3_witness :
    (on_timeout envNoFail 0 viewC3).2.2 =
      [{ call := { content := timeoutBanner,
                   embeds := some (viewC3.outputs.mapIdx
                     (fun i o => mkOutputEmbed i viewC3.outputs.length o)),
                   attachments := some (viewC3.outputs.map
                     (fun o => { filename := o.filename,
                                 data := decodedImageD envNoFail.fs o })),
                   view := none }, ok := true }] :=
  (C3_render_counts_and_titles envNoFail 0 viewC3 { id := 2 } rfl (by decide)
    (by decide) (by decide) rfl).1

/-- Claim C5: on a session with a message and more than ten outputs,
all of which decode, the finalized render is a single accepted edit
whose embeds are the overflow notice followed by the ten numbered
embeds of the first ten outputs in insertion order (eleven embeds in
total) and whose attachments are the ten corresponding files; the
overflow notice reports how many outputs beyond ten exist and is
prepended, not counted against the ten. -/
theorem C5_overflow_render (env : Env) (k : Nat) (v : ImageProcessingView)
    (m : MessageRef) (hm : v.message = some m)
    (hn : v.outputs.length > 10)
    (hdec : ∀ o ∈ v.outputs, decodes env.fs o = true)
    (hE : env.editFails k = false) :
    (on_timeout env k v).2.2 =
      [{ call := { content := timeoutBanner,
                   embeds := some (overflowEmbed v.outputs.length ::
                     (v.outputs.take 10).mapIdx
                       (fun i o => mkOutputEmbed i v.outputs.length o)),
                   attachments := some ((v.outputs.take 10).map
                     (fun o => { filename := o.filename,
                                 data := decodedImageD env.fs o })),
                   view := none }, ok := true }] ∧
    (overflowEmbed v.outputs.length ::
      (v.outputs.take 10).mapIdx
        (fun i o => mkOutputEmbed i v.outputs.length o)).length = 11 ∧
    ((v.outputs.take 10).map (fun o =>
        ({ filename := o.filename, data := decodedImageD env.fs o } : DFile))).length
      = 10 ∧
    overflowEmbed v.outputs.length
      = { title := "Additional Outputs",
          description := "Note: " ++ toString (v.outputs.length - 10) ++
            " additional output images were generated but cannot be displayed due to Discord\x27s 10-embed limit.",
          color := Color.blue, imageUrl := none } := by
  have hdec10 : ∀ o ∈ v.outputs.take 10, decodes env.fs o = true :=
    fun o ho => hdec o (List.take_subset 10 v.outputs ho)
  have hz : (fun j (o : OutputImage) =>
        mkOutputEmbed (0 + j) v.outputs.length o)
      = (fun j o => mkOutputEmbed j v.outputs.length o) := by
    funext j o
    rw [Nat.zero_add]
  have hr := renderOutputs_spec env.fs v.outputs.length (v.outputs.take 10) 0
    hdec10
  have hlen : (v.outputs.take 10).length = 10 := by
    rw [List.length_take]
    omega
  refine ⟨?_, ?_, ?_, rfl⟩
  · unfold on_timeout
    rw [hm]
    have hne : v.outputs.isEmpty = false := by
      cases hv : v.outputs with
      | nil => rw [hv] at hn; simp at hn
      | cons a t => simp
    rw [hz] at hr
    simp [hne, hn, hr, attemptEdit, hE]
  · simp [List.length_mapIdx, hlen]
  · rw [List.length_map, hlen]

/-- Claim C5, witness at a concrete session with eleven decodable
outputs. -/
theorem C5_witness :
    (on_timeout envNoFail 0 viewC5).2.2 =
      [{ call := { content := timeoutBanner,
                   embeds := some (overflowEmbed viewC5.outputs.length ::
                     (viewC5.outputs.take 10).mapIdx
                       (fun i o => mkOutputEmbed i viewC5.outputs.length o)),
                   attachments := some ((viewC5.outputs.take 10).map
                     (fun o => { filename := o.filename,
                                 data := decodedImageD envNoFail.fs o })),
                   view := none }, ok := true }] :=
  (C5_overflow_render envNoFail 0 viewC5 { id := 3 } rfl (by decide)
    (by decide) rfl).1

/-- Claim C7: on a session of three outputs whose second one fails to
load (missing file, or a file whose decoding raises), the finalized
render is a single accepted edit with exactly two embeds and two
attachments, for the first and third outputs in order; the failure is
contained in the per-output loop and the handler still completes its
normal edit. -/
theorem C7_failure_isolation (env : Env) (k : Nat) (v : ImageProcessingView)
    (m : MessageRef) (o1 o2 o3 : OutputImage) (hm : v.message = some m)
    (houts : v.outputs = [o1, o2, o3])
    (h1 : decodes env.fs o1 = true) (h2 : decodes env.fs o2 = false)
    (h3 : decodes env.fs o3 = true) (hE : env.editFails k = false) :
    (on_timeout env k v).2.2 =
      [{ call := { content := timeoutBanner,
                   embeds := some [mkOutputEmbed 0 3 o1, mkOutputEmbed 2 3 o3],
                   attachments := some
                     [{ filename := o1.filename,
                        data := decodedImageD env.fs o1 },
                      { filename := o3.filename,
                        data := decodedImageD env.fs o3 }],
                   view := none }, ok := true }] := by
  unfold on_timeout
  rw [hm]
  simp [houts, renderOutputs,
    prepareOutput_of_decodes env.fs 0 3 o1 h1,
    prepareOutput_of_not_decodes env.fs 1 3 o2 h2,
    prepareOutput_of_decodes env.fs 2 3 o3 h3,
    attemptEdit, hE]

/-- Claim C7, witness at a concrete session whose second output has a
missing source file. -/
theorem C7_witness :
    (on_timeout envNoFail 0 viewC7).2.2 =
      [{ call := { content := timeoutBanner,
                   embeds := some [mkOutputEmbed 0 3 outA,
                                   mkOutputEmbed 2 3 outB],
                   attachments := some
                     [{ filename := outA.filename,
                        data := decodedImageD envNoFail.fs outA },
                      { filename := outB.filename,
                        data := decodedImageD envNoFail.fs outB }],
                   view := none }, ok := true }] :=
  C7_failure_isolation envNoFail 0 viewC7 { id := 4 } outA o2bad outB rfl rfl
    (by decide) (by decide) (by decide) rfl

/-- Claim C8, counterexample: an exception is raised while constructing
the finalized render (decoding the only output raises), yet the handler
does not fall back to the minimal plain text notice — it catches the
exception inside the per-output loop, skips the output, and performs
the normal banner edit (here with an empty embed list). -/
theorem C8_counterexample :
    oCorrupt.load_image envAllCorrupt.fs = Except.error () ∧
    (on_timeout envAllCorrupt 0 viewC8).2.2 =
      [{ call := { content := timeoutBanner, embeds := some [],
                   attachments := some [], view := none }, ok := true }] ∧
    timeoutBanner ≠ fallbackNotice :=
  ⟨rfl, by decide, by decide⟩

/-- Claim C8 as amended: per-output failures are caught inside the loop
and only skip that output, while an exception raised when applying the
finalized edit is caught at the top level: the handler then attempts
exactly one fallback edit carrying the minimal plain text notice with
`view=None` and no embeds or attachments arguments, whose own failure
is also swallowed, so the handler never raises to its caller. -/
theorem C8_edit_failure_fallback (env : Env) (k : Nat)
    (v : ImageProcessingView) (m : MessageRef) (hm : v.message = some m)
    (hf : env.editFails k = true) :
    ((on_timeout env k v).2.2).map
        (fun a => (a.call.content, a.call.view, a.ok))
      = [(timeoutBanner, none, false),
         (fallbackNotice, none, !env.editFails (k + 1))] ∧
    ((on_timeout env k v).2.2).map
        (fun a => (a.call.embeds.isNone, a.call.attachments.isNone))
      = [(false, false), (true, true)] := by
  unfold on_timeout
  rw [hm]
  simp [attemptEdit, hf]

/-- Claim C8, witness: a host that rejects the first edit of the run
forces the fallback attempt. -/
theorem C8_witness :
    ((on_timeout envEditFail 0 emptyView).2.2).map
        (fun a => (a.call.content, a.call.view, a.ok))
      = [(timeoutBanner, none, false),
         (fallbackNotice, none, !envEditFail.editFails (0 + 1))] ∧
    ((on_timeout envEditFail 0 emptyView).2.2).map
        (fun a => (a.call.embeds.isNone, a.call.attachments.isNone))
      = [(false, false), (true, true)] :=
  C8_edit_failure_fallback envEditFail 0 emptyView { id := 1 } rfl rfl

/-- Claim C6, counterexample: on an output whose prompt has length 50,
the rendered description is not the prompt verbatim — the code prefixes
the fixed marker before the prompt text. -/
theorem C6_counterexample :
    p50c.length = 50 ∧
    (on_timeout envNoFail 0 viewC6).2.2 =
      [{ call := { content := timeoutBanner,
                   embeds := some [mkOutputEmbed 0 1 o50c],
                   attachments := some [{ filename := o50c.filename,
                                          data := { data := 2 } }],
                   view := none }, ok := true }] ∧
    (mkOutputEmbed 0 1 o50c).description ≠ o50c.prompt ∧
    (mkOutputEmbed 0 1 o50c).description = "Prompt: " ++ o50c.prompt :=
  ⟨by decide, by decide, by decide, by decide⟩

/-- Claim C6 as amended: the rendered description is the fixed marker
followed by the truncated prompt: for a prompt of length 150 it is the
marker, then exactly the first 100 characters of the prompt, then the
ellipsis; for a prompt of length 50 it is the marker, then the prompt
verbatim, with no ellipsis. -/
theorem C6_truncation_behavior (o150 o50 : OutputImage) (i n j l : Nat)
    (h150 : o150.prompt.length = 150) (h50 : o50.prompt.length = 50) :
    (mkOutputEmbed i n o150).description
        = "Prompt: " ++ o150.prompt.take 100 ++ "..." ∧
    (o150.prompt.take 100).length = 100 ∧
    (mkOutputEmbed j l o50).description = "Prompt: " ++ o50.prompt := by
  refine ⟨?_, ?_, ?_⟩
  · simp [mkOutputEmbed, h150]
  · rw [String.take_eq]
    show (List.take 100 o150.prompt.data).length = 100
    rw [List.length_take]
    have hd : o150.prompt.data.length = 150 := h150
    omega
  · have hle : o50.prompt.data.length ≤ 100 := by
      have hd : o50.prompt.data.length = 50 := h50
      omega
    have htake : o50.prompt.take 100 = o50.prompt := by
      rw [String.take_eq, List.take_of_length_le hle]
    simp [mkOutputEmbed, h50, htake]

/-- Claim C6, witness of the amended statement at concrete prompts of
lengths 150 and 50. -/
theorem C6_witness :
    (mkOutputEmbed 0 1 o150c).description
        = "Prompt: " ++ o150c.prompt.take 100 ++ "..." ∧
    (o150c.prompt.take 100).length = 100 ∧
    (mkOutputEmbed 0 1 o50c).description = "Prompt: " ++ o50c.prompt :=
  C6_truncation_behavior o150c o50c 0 1 0 1 (by decide) (by decide)

end Zpt
